import Mathlib

/-!
Verification development for the `plexurl` command-line client
(`plexurl/plexurl.py`).

The program is a thin, single-threaded CLI over an external media-server
client library.  We give a shallow embedding of its functions:

* Python strings are modelled as `Str := List Char`; Python string
  operations (`split`, `join`, `in`, slicing, `count`, `zfill`) are
  modelled as the corresponding list functions.
* Side effects are modelled as an explicit `Trace` of `Event`s: every
  `print` is an `Event.out` tagged with the stream it writes to
  (`print` → stdout, `info` → stderr), interactive reads are
  `Event.promptInput`, and the external library calls that the claims
  talk about (`signin`, `resources`, `connect`, `getStreamUrl`) are
  recorded as events.
* Python exceptions are modelled with `Except PyErr`; an `.error e`
  result is an exception propagating out of the modelled function
  (uncaught there).  `PyErr.outOfFuel` is a model artefact used to
  bound the source's unbounded recursion in `lookup_episode`; no
  theorem below relies on it.
* The external `plexapi` objects are modelled at the interface the
  program uses: a `Show` is its list of seasons (each a list of
  episodes), and the library sections' `get`/`search`/`all` calls are
  abstract functions over title strings supplied as parameters
  (`MovieSection`, `TVSection`), since their behaviour lives outside
  this repository.  The two call sites that hand RAW library objects —
  not titles — to `choose` and `get` (lines 182 and 205) are modelled
  by their actual outcomes: `len()` on a plexapi object raises
  `TypeError` inside `print_multicolumn`, and `get(<object>)` raises
  `AttributeError` at `title.lower()`; see `lookup_movie` and
  `resolveShow`.
-/

/-- A Python string, modelled as its character sequence. -/
abbrev Str := List Char

/-- Shorthand turning a Lean string literal into the `Str` model. -/
def str (s : String) : Str := s.toList

/-- The Python exceptions that can propagate out of the modelled code.
`outOfFuel` is a model artefact (see module docstring). -/
inductive PyErr
  | valueError
  | zeroDivisionError
  | typeError
  | notFound
  | attributeError
  | nameError
  | indexError
  | outOfFuel
deriving DecidableEq

/-- The two output streams of the process. -/
inductive Chan
  | stdout
  | stderr
deriving DecidableEq

/-- Observable actions of the program: printed lines (tagged with the
stream they go to), interactive input reads, and the external library
calls the claims mention. -/
inductive Event
  | out (s : Chan) (msg : Str)
  | promptInput (q : Str)
  | signin (u p : Str)
  | resourcesQueried
  | connectAttempt (name : Str)
  | getStreamUrl (title : Str) (videoResolution : Option Str)
deriving DecidableEq

/-- A run's sequence of observable actions. -/
abbrev Trace := List Event

/-- Decidable equality for `Except` results, so concrete runs can be
settled with `decide`. -/
instance {ε α : Type _} [DecidableEq ε] [DecidableEq α] : DecidableEq (Except ε α) := fun a b =>
  match a, b with
  | Except.error e, Except.error f =>
    if h : e = f then isTrue (by rw [h])
    else isFalse fun hh => h (Except.error.inj hh)
  | Except.ok x, Except.ok y =>
    if h : x = y then isTrue (by rw [h])
    else isFalse fun hh => h (Except.ok.inj hh)
  | Except.error _, Except.ok _ => isFalse fun hh => Except.noConfusion hh
  | Except.ok _, Except.error _ => isFalse fun hh => Except.noConfusion hh

/-- Model of `info(*objs)` (plexurl.py lines 99-105): print to stderr. -/
def info (msg : Str) : Trace := [Event.out Chan.stderr msg]

/-- Model of `prompt(*objs)` (lines 107-118): the prompt text goes to stderr
(stdout is temporarily redirected there) and a line is read.  `getpass`
is modelled the same way. -/
def promptT (q : Str) : Trace := [Event.out Chan.stderr q, Event.promptInput q]

/-- The stdout lines of a trace, in order. -/
def stdoutLines (t : Trace) : List Str :=
  t.filterMap fun e =>
    match e with
    | Event.out Chan.stdout m => some m
    | _ => none

/-- Whether `needle` starts `hay` (used to build the substring test). -/
def startsWithL : Str → Str → Bool
  | [], _ => true
  | _ :: _, [] => false
  | a :: xs, b :: ys => a = b && startsWithL xs ys

/-- Python's `needle in hay` substring test. -/
def isSubstring (needle : Str) : Str → Bool
  | [] => needle.isEmpty
  | c :: cs => startsWithL needle (c :: cs) || isSubstring needle cs

/-- Python's `s.split(":")`. -/
def splitOnColon : Str → List Str
  | [] => [[]]
  | c :: cs =>
    if c = ':' then [] :: splitOnColon cs
    else
      match splitOnColon cs with
      | [] => [[c]]
      | h :: t => (c :: h) :: t

/-- Python's `sep.join(parts)`. -/
def joinOn (sep : Str) : List Str → Str
  | [] => []
  | [x] => x
  | x :: y :: rest => x ++ sep ++ joinOn sep (y :: rest)

/-- Characters allowed in a URL scheme by CPython's `urlsplit`
(letters, digits, `+`, `-`, `.`). -/
def schemeChar (c : Char) : Bool :=
  c.isAlphanum || c = '+' || c = '-' || c = '.'

/-- Modelled from CPython's `urlsplit`: strip a leading `scheme:` when the
text before the first colon is a non-empty run of scheme characters and
the remainder is not a bare port number (empty or all digits). -/
def splitScheme (s : Str) : Str :=
  let pre := s.takeWhile fun c => c ≠ ':'
  let rest := s.drop (pre.length + 1)
  if pre.length > 0 && pre.length < s.length && pre.all schemeChar
      && !(rest.isEmpty || rest.all Char.isDigit) then
    rest
  else s

/-- Modelled from CPython's `urlsplit`: the `netloc` component is the text
after a leading `//` (once the scheme is stripped) up to the first
`/`, `?` or `#`; it is empty when the URL has no `//`. -/
def urlparse_netloc (s : Str) : Str :=
  match splitScheme s with
  | '/' :: '/' :: r => r.takeWhile fun c => c ≠ '/' && c ≠ '?' && c ≠ '#'
  | _ => []

/-- Model of `get_server` lines 147-151: the hostname handed to `gethostbyname`.
When the URI literal holds at least two colons the trailing `:`-segment
of the netloc is dropped (`":".join(urlparse(uri).netloc.split(":")[:-1])`),
otherwise the netloc is used as is. -/
def host_for_resolution (uri : Str) : Str :=
  if 2 ≤ uri.count ':' then
    joinOn [':'] ((splitOnColon (urlparse_netloc uri)).dropLast)
  else urlparse_netloc uri

/-- Model of `max(len(a) for a in alist)` over a non-empty list (the empty list
raises `ValueError` in Python and is gated separately in `mc_core`). -/
def maxLen (alist : List Str) : Nat :=
  (alist.map List.length).foldl Nat.max 0

/-- Chunking worker, structurally recursive on a fuel argument so that it
reduces in the kernel.  Each step consumes `k1 + 1 ≥ 1` list elements
while the fuel drops by one, so fuel `l.length` never runs out; the
fuel-exhausted case returns the remainder as one chunk, which keeps the
concatenation of the chunks equal to the input for every fuel. -/
def chunksOfAux (k1 : Nat) : Nat → List Str → List (List Str)
  | _, [] => []
  | 0, x :: xs => [x :: xs]
  | fuel + 1, x :: xs => ((x :: xs).take (k1 + 1)) :: chunksOfAux k1 fuel (xs.drop k1)

/-- Model of `[alist[i:i+nrows] for i in range(0, len(alist), nrows)]` with chunk
size `k1 + 1` (the source always chunks with `nrows ≥ 1`). -/
def chunksOf (k1 : Nat) (l : List Str) : List (List Str) :=
  chunksOfAux k1 l.length l

/-- Model of `chunks[-1].extend('' for i in range(nrows - len(chunks[-1])))`
(line 67): the last chunk is padded with empty strings up to `nrows`. -/
def padLast (nrows : Nat) : List (List Str) → List (List Str)
  | [] => []
  | [c] => [c ++ List.replicate (nrows - c.length) ([] : Str)]
  | c :: cs => c :: padLast nrows cs

/-- Outcome of `print_multicolumn`'s layout computation: either the
degenerate one-item-per-line fallback (`inl`, the caught
`ZeroDivisionError` branch of lines 58-60) or the padded column-major
chunks that become the table's columns (`inr`). -/
abbrev MCOut := Sum (List Str) (List (List Str))

/-- Model of `print_multicolumn(alist)` (lines 46-71), layout part.
`width` is the terminal width returned by `get_terminal_size`.
Faithful control flow:
* `max(...)` on an empty list raises `ValueError`;
* line 54 (`ncols = width // maxlen`) sits outside the `try`, so a zero
  `maxlen` raises an uncaught `ZeroDivisionError`;
* inside the `try`, `ncols = 0` raises `ZeroDivisionError` at line 56,
  caught and turned into the one-per-line fallback;
* otherwise `nrows = ceil(n / ncols)` and the list is chunked into
  columns of `nrows` items, the last column padded with `''`.
Line 57's recomputed `ncols` equals the number of chunks and only feeds
the `PrettyTable` header arity; it does not change any cell. -/
def mc_core (width : Nat) (alist : List Str) : Except PyErr MCOut :=
  match alist with
  | [] => Except.error PyErr.valueError
  | _ :: _ =>
    if maxLen alist = 0 then Except.error PyErr.zeroDivisionError
    else
      let ncols := width / maxLen alist
      if ncols = 0 then Except.ok (Sum.inl alist)
      else
        let n := alist.length
        let nrows := (n + ncols - 1) / ncols
        Except.ok (Sum.inr (padLast nrows (chunksOf (nrows - 1) alist)))

/-- The cells of `print_multicolumn`'s output read column-major (first
column top to bottom, then the next), when the call does not raise. -/
def mcCells (width : Nat) (alist : List Str) : Option (List Str) :=
  match mc_core width alist with
  | Except.ok (Sum.inl lines) => some lines
  | Except.ok (Sum.inr cols) => some cols.flatten
  | Except.error _ => none

/-- The printing of `print_multicolumn`: the fallback prints each item on
its own line (`print("\n".join(alist))`), the table path prints one line
per table row, where the rows are `zip(*chunks)` (the transpose of the
columns).  `PrettyTable`'s alignment padding is abstracted; each printed
row is modelled as its cells joined by a single space. -/
def print_multicolumn_run (width : Nat) (alist : List Str) : Except PyErr Trace :=
  match mc_core width alist with
  | Except.error e => Except.error e
  | Except.ok (Sum.inl lines) =>
    Except.ok (lines.map fun l => Event.out Chan.stdout l)
  | Except.ok (Sum.inr cols) =>
    Except.ok ((List.transpose cols).map fun row => Event.out Chan.stdout (joinOn (str " ") row))

/-- Model of `truncate(text, chars=30, ending="...")` (lines 73-83).  The body is
`text if len(text) < 30 else text[:25] + "..."`: the `chars` and
`ending` parameters are accepted but never read. -/
def truncate (text : Str) (chars : Nat := 30) (ending : Str := str "...") : Str :=
  if text.length < 30 then text else text.take 25 ++ str "..."

/-- Model of `choose(options, q)` (lines 85-97).  A single option is auto-selected
with an `info` message; otherwise the options are printed as a
multi-column listing and, only when stdout is a tty (`interactive`), the
user is prompted; a non-interactive call returns `None`.  `ans` is the
line the user would type. -/
def choose (interactive : Bool) (ans : Str) (width : Nat) (options : List Str)
    (q : Str) : Except PyErr (Trace × Option Str) :=
  match options with
  | [o] => Except.ok (info (str "Selecting " ++ o ++ str "..."), some o)
  | _ =>
    match print_multicolumn_run width options with
    | Except.error e => Except.error e
    | Except.ok t =>
      if interactive then Except.ok (t ++ promptT q, some ans)
      else Except.ok (t, none)

/-- A movie as the program consumes it: its title and the URL that the
external `getStreamUrl()` would build for it. -/
structure Movie where
  title : Str
  streamUrl : Str
deriving DecidableEq

/-- The external "Movies" library section as the program calls it:
`get` is exact-title lookup (`None` models the `NotFound` raise),
`search` the library's fuzzy/substring search, `all` the full listing.
Library items are identified by their titles (see module docstring). -/
structure MovieSection where
  all : List Movie
  get : Str → Option Movie
  search : Str → List Movie

/-- What `lookup_movie` evaluates to: a movie, or the numeric code `50`. -/
inductive MovieRes
  | m (mv : Movie)
  | code (n : Nat)
deriving DecidableEq

/-- Model of `lookup_movie(server, movie)` (lines 166-185): exact `get`
first; on `NotFound`, `search`; empty search results print "No results"
and return `50`.  Line 182 then hands the RAW `Movie` objects of
`results` to `choose` and its return value to `get`, although `choose`'s
docstring requires "a list of string options":
* with two or more results, `choose` reaches `print_multicolumn`, whose
  line 54 computes `len(a)` on each option — a plexapi `Movie` defines
  no `__len__`, so `TypeError` is raised (uncaught) before anything is
  printed or presented;
* with exactly one result, `choose`'s single-option branch fires first:
  it prints `"Selecting {}...".format(obj)` to stderr (the interpolated
  object repr is not tracked by this model; no theorem reads it) and
  returns the `Movie` object itself, which line 182 then passes to
  `section.get`.  The era's `plexapi` `get(title)` calls
  `title.lower()` (`utils.findItem`), raising `AttributeError` on a
  `Movie` object — on no version can an object match a title string, so
  this branch never yields a movie. -/
def lookup_movie (sec : MovieSection) (interactive : Bool) (ans : Str) (width : Nat)
    (name : Str) : Trace × Except PyErr MovieRes :=
  match sec.get name with
  | some mv => ([], Except.ok (MovieRes.m mv))
  | none =>
    match sec.search name with
    | [] => (info (str "No results"), Except.ok (MovieRes.code 50))
    | [_] =>
      (info (str "Selecting ..."), Except.error PyErr.attributeError)
    | _ :: _ :: _ => ([], Except.error PyErr.typeError)

/-- The parsed command line (`main`, lines 274-284).  The `--show` flag is
called `tv` here (`show` is a Lean keyword). -/
structure Args where
  movie : Bool
  tv : Bool
  name : Option Str
  episode : Option Str
  resolution : Option Str

/-- Model of `print(lookup_movie(server, name).getStreamUrl())` (lines 232 and 236):
the stream URL is built with NO resolution argument and printed to
stdout.  A `lookup_movie` result of `50` is an `int`, so the attribute
fetch raises `AttributeError`. -/
def movieUrlStep (sec : MovieSection) (interactive : Bool) (ans : Str) (width : Nat)
    (n : Str) : Trace × Except PyErr Unit :=
  match lookup_movie sec interactive ans width n with
  | (t, Except.error e) => (t, Except.error e)
  | (t, Except.ok (MovieRes.code _)) => (t, Except.error PyErr.attributeError)
  | (t, Except.ok (MovieRes.m mv)) =>
    (t ++ [Event.getStreamUrl mv.title none, Event.out Chan.stdout mv.streamUrl],
     Except.ok ())

/-- Model of `main_movie(server, args)` (lines 222-236).  With `--name`, look the
movie up and print its URL; without, list all movies with `choose` and
print the URL of the selection when one was made (a `None` or empty
selection falls through silently). -/
def main_movie (sec : MovieSection) (interactive : Bool) (ans : Str) (width : Nat)
    (args : Args) : Trace × Except PyErr Unit :=
  match args.name with
  | some n => movieUrlStep sec interactive ans width n
  | none =>
    match choose interactive ans width (sec.all.map fun mv => mv.title)
        (str "Select a movie: ") with
    | Except.error e => ([], Except.error e)
    | Except.ok (t, none) => (t, Except.ok ())
    | Except.ok (t, some sel) =>
      if sel.isEmpty then (t, Except.ok ())
      else
        match movieUrlStep sec interactive ans width sel with
        | (t2, r) => (t ++ t2, r)

/-- An episode as the program consumes it.  `parentIndex` and `index` are
the season and episode numbers the library reports, as strings (they are
`zfill`ed for display). -/
structure Episode where
  title : Str
  parentIndex : Str
  index : Str
  streamUrl : Str
deriving DecidableEq

/-- A season: its ordered episode list (`season.episodes()`). -/
structure Season where
  episodes : List Episode
deriving DecidableEq

/-- A show: its title and ordered season list (`show.seasons()`). -/
structure ShowT where
  title : Str
  seasons : List Season
deriving DecidableEq

/-- Model of `show.episodes()`: every episode of the show, season by season. -/
def ShowT.allEpisodes (s : ShowT) : List Episode :=
  (s.seasons.map fun x => x.episodes).flatten

/-- Model of `show.episode(title)`: the external exact-title episode fetch,
modelled as a title search over the show's episodes. -/
def ShowT.episodeByTitle (s : ShowT) (t : Str) : Option Episode :=
  s.allEpisodes.find? fun e => e.title == t

/-- The external "TV Shows" library section (`get`/`search`, as for
movies). -/
structure TVSection where
  get : Str → Option ShowT
  search : Str → List ShowT

/-- The numeric value of a digit string, as Python's `int`. -/
def digitsVal (ds : Str) : Nat :=
  ds.foldl (fun n c => 10 * n + (c.toNat - 48)) 0

/-- Model of `re.match("S(\d+?)E(\d+)", episode)` (line 209): the string must
start with `S`, a non-empty digit run, `E`, and a non-empty digit run;
anything may follow.  (The lazy `\d+?` makes no difference here: `E` is
not a digit, so group 1 is the maximal digit run after `S`.) -/
def parseSnnEnn (s : Str) : Option (Nat × Nat) :=
  match s with
  | 'S' :: rest =>
    match rest.takeWhile Char.isDigit, rest.dropWhile Char.isDigit with
    | [], _ => none
    | d1, 'E' :: rest2 =>
      match rest2.takeWhile Char.isDigit with
      | [] => none
      | d2 => some (digitsVal d1, digitsVal d2)
    | _, _ => none
  | _ => none

/-- Python's `s.zfill(w)` for the digit strings used here. -/
def zfill (w : Nat) (s : Str) : Str :=
  List.replicate (w - s.length) '0' ++ s

/-- Model of `"S{}E{} {}".format(ep.parentIndex.zfill(2), ep.index.zfill(2),
truncate(ep.title))` (lines 215 and 269): the label the program prints
for an episode. -/
def epLabel (ep : Episode) : Str :=
  ('S' :: zfill 2 ep.parentIndex) ++ ('E' :: zfill 2 ep.index) ++ (' ' :: truncate ep.title)

/-- What `lookup_episode` evaluates to: an episode, or the code `50`. -/
inductive EpRes
  | ep (e : Episode)
  | code (n : Nat)
deriving DecidableEq

/-- Model of `lookup_episode` lines 200-208: resolve the `show` argument,
which is either an already-resolved show object or a name.  A name goes
through exact `get`; on `NotFound`, `search`; empty results return `50`
(`inr 50`).  Line 205 then passes the raw `Show` objects of `results` to
`choose` and its return value to `get`, exactly like line 182 for
movies (see `lookup_movie`): two or more results raise `TypeError` at
`len(<Show>)` inside `print_multicolumn`, and a single auto-selected
`Show` object handed to `get` raises `AttributeError` at
`title.lower()`.  The interactive/string flow for episodes proper is in
`lookup_episode`, where the source does build label strings. -/
def resolveShow (sec : TVSection) (interactive : Bool) (ans : Str) (width : Nat)
    (sh : Sum ShowT Str) : Trace × Except PyErr (Sum ShowT Nat) :=
  match sh with
  | Sum.inl s => ([], Except.ok (Sum.inl s))
  | Sum.inr name =>
    match sec.get name with
    | some s => ([], Except.ok (Sum.inl s))
    | none =>
      match sec.search name with
      | [] => (info (str "No results"), Except.ok (Sum.inr 50))
      | [_] =>
        (info (str "Selecting ..."), Except.error PyErr.attributeError)
      | _ :: _ :: _ => ([], Except.error PyErr.typeError)

/-- Model of `lookup_episode(server, show, episode)` (lines 187-220).  After show
resolution: an `SnnEnn` match takes precedence and indexes
`show.seasons()[g1].episodes()[g2]` directly (Python 0-based list
indexing; out of range raises `IndexError`); otherwise exact
`show.episode(title)`; on `NotFound`, a substring scan over the show's
episode titles builds `SnnEnn`-prefixed labels, `choose` picks one and
the function recurses on the chosen label (a `None` choice makes
`re.match` raise `TypeError`).  `fuel` bounds the recursion (model
artefact). -/
def lookup_episode : Nat → TVSection → Bool → Str → Nat → Sum ShowT Str → Str →
    Trace × Except PyErr EpRes
  | 0, _, _, _, _, _, _ => ([], Except.error PyErr.outOfFuel)
  | fuel + 1, sec, interactive, ans, width, sh, episode =>
    match resolveShow sec interactive ans width sh with
    | (t0, Except.error e) => (t0, Except.error e)
    | (t0, Except.ok (Sum.inr c)) => (t0, Except.ok (EpRes.code c))
    | (t0, Except.ok (Sum.inl s)) =>
      match parseSnnEnn episode with
      | some (sn, en) =>
        match s.seasons[sn]? with
        | none => (t0, Except.error PyErr.indexError)
        | some sea =>
          match sea.episodes[en]? with
          | none => (t0, Except.error PyErr.indexError)
          | some ep => (t0, Except.ok (EpRes.ep ep))
      | none =>
        match s.episodeByTitle episode with
        | some ep => (t0, Except.ok (EpRes.ep ep))
        | none =>
          let results :=
            (s.allEpisodes.filter fun ep => isSubstring episode ep.title).map epLabel
          if results.isEmpty then
            (t0 ++ info (str "No results"), Except.ok (EpRes.code 50))
          else
            match choose interactive ans width results (str "Select an episode: ") with
            | Except.error e => (t0, Except.error e)
            | Except.ok (t1, none) => (t0 ++ t1, Except.error PyErr.typeError)
            | Except.ok (t1, some c) =>
              match lookup_episode fuel sec interactive ans width (Sum.inl s) c with
              | (t2, r) => (t0 ++ t1 ++ t2, r)

/-- Model of `main_episode(server, show, episode)` (lines 254-271).  With an
episode argument, look it up and print `getStreamUrl()` (no resolution
argument, line 267).  Without one, list the show's episodes and, when a
selection was made, evaluate `lookup_episode(...)` and then
`args.resolution` — but `args` is not in scope in `main_episode`, so
line 271 raises `NameError` before `getStreamUrl` is ever called (a
code-`50` lookup result raises `AttributeError` first, at the attribute
fetch on the `int`). -/
def main_episode (fuel : Nat) (tsec : TVSection) (interactive : Bool) (ans : Str)
    (width : Nat) (sname : Str) (episode : Option Str) : Trace × Except PyErr Unit :=
  match episode with
  | some e =>
    match lookup_episode fuel tsec interactive ans width (Sum.inr sname) e with
    | (t, Except.error er) => (t, Except.error er)
    | (t, Except.ok (EpRes.code _)) => (t, Except.error PyErr.attributeError)
    | (t, Except.ok (EpRes.ep ep)) =>
      (t ++ [Event.getStreamUrl ep.title none, Event.out Chan.stdout ep.streamUrl],
       Except.ok ())
  | none =>
    match tsec.get sname with
    | none => ([], Except.error PyErr.notFound)
    | some s =>
      match choose interactive ans width (s.allEpisodes.map epLabel)
          (str "Select an episode: ") with
      | Except.error e => ([], Except.error e)
      | Except.ok (t, none) => (t, Except.ok ())
      | Except.ok (t, some sel) =>
        if sel.isEmpty then (t, Except.ok ())
        else
          match lookup_episode fuel tsec interactive ans width (Sum.inr sname) sel with
          | (t2, Except.error er) => (t ++ t2, Except.error er)
          | (t2, Except.ok (EpRes.code _)) => (t ++ t2, Except.error PyErr.attributeError)
          | (t2, Except.ok (EpRes.ep _)) => (t ++ t2, Except.error PyErr.nameError)

/-- A connected server handle: its reported base URI. -/
structure Server where
  baseuri : Str
deriving DecidableEq

/-- One account resource: its name and what `connect()` yields
(`none` models the `NotFound` raise for an unreachable resource). -/
structure Resource where
  name : Str
  connect : Option Server
deriving DecidableEq

/-- The environment `get_server` runs against: the outcome of the
anonymous `PlexServer(uri)` attempt (`none` = `NotFound`), the
credential environment variables, the user's answers to the three
prompts, the signed-in account's resource list, and DNS resolution.
Authentication failures of `signin` propagate uncaught in the source and
are outside the claims, so `signin` is modelled as succeeding with
`resources`.  Empty-string flag values are falsy in Python and modelled
as `none`. -/
structure PlexEnv where
  anon : Option Server
  usernameEnv : Option Str
  passwordEnv : Option Str
  usernameAns : Str
  passwordAns : Str
  servernameAns : Str
  resources : List Resource
  gethostbyname : Str → Str

/-- What `get_server` evaluates to: a server handle, the numeric failure
code `10`, or an uncaught exception. -/
inductive GetServerResult
  | server (s : Server)
  | exitCode (c : Nat)
  | err (e : PyErr)
deriving DecidableEq

/-- Model of `x = arg if arg else os.environ.get(VAR, None) or prompt(...)`
(lines 137-138), value part: flag, else environment variable, else the
prompted answer. -/
def credValue (arg envVar : Option Str) (ans : Str) : Str :=
  match arg with
  | some u => u
  | none =>
    match envVar with
    | some e => e
    | none => ans

/-- Trace of the same credential resolution: a prompt happens only when
both the flag and the environment variable are absent. -/
def credTrace (arg envVar : Option Str) (q : Str) : Trace :=
  match arg with
  | some _ => []
  | none =>
    match envVar with
    | some _ => []
    | none => promptT q

/-- The servername prompt message (line 142). -/
def snamePromptMsg : Str :=
  str "Please enter server name (or specify with --servername). If you don't know it, press enter and I'll (very slowly!) search for the correct server: "

/-- Model of `"Servers: " + ", ".join(a.name for a in user.resources())` (line 141). -/
def serversMsg (rs : List Resource) : Str :=
  str "Servers: " ++ joinOn (str ", ") (rs.map fun r => r.name)

/-- Lines 140-142, trace part: without a `--servername` flag the resource
names are listed (an account query) and the user is prompted. -/
def snameTrace (env : PlexEnv) (arg : Option Str) : Trace :=
  match arg with
  | some _ => []
  | none => Event.resourcesQueried :: (info (serversMsg env.resources) ++ promptT snamePromptMsg)

/-- Lines 140-142, value part: `prompt(...) or None` maps an empty answer
to `None`. -/
def snameValue (env : PlexEnv) (arg : Option Str) : Option Str :=
  match arg with
  | some n => some n
  | none => if env.servernameAns.isEmpty then none else some env.servernameAns

/-- Model of `user.getResource(servername).connect()` (line 144): resource lookup
by name (raising `NotFound` on a miss) then `connect()` (also raising
`NotFound` on failure); neither is inside a `try`. -/
def connectNamed (env : PlexEnv) (n : Str) : GetServerResult :=
  match env.resources.find? fun r => r.name == n with
  | none => GetServerResult.err PyErr.notFound
  | some r =>
    match r.connect with
    | none => GetServerResult.err PyErr.notFound
    | some s => GetServerResult.server s

/-- Line 154's message: `"Got IP from hostname: ..." if ip not in uri
else "Searching for ..."`. -/
def ipMsg (ip uri : Str) : Str :=
  if isSubstring ip uri then str "Searching for " ++ ip
  else str "Got IP from hostname: " ++ ip

/-- Lines 155-164: iterate the account's resources, `connect()` to each
(a `NotFound` is logged and skipped), and return the first whose
`baseuri` contains the target IP as a substring; report and return `10`
when none does (the closing `info` of line 163 is folded into the empty
case). -/
def searchLoop (ip : Str) : List Resource → Trace × GetServerResult
  | [] =>
    (info (str "Couldn't find server in your user's server list."),
     GetServerResult.exitCode 10)
  | r :: rs =>
    match r.connect with
    | none =>
      (Event.connectAttempt r.name ::
        (info (str "Couldn't connect to " ++ r.name) ++ (searchLoop ip rs).1),
       (searchLoop ip rs).2)
    | some s =>
      if isSubstring ip s.baseuri then
        (Event.connectAttempt r.name :: info (str "Found server: " ++ r.name),
         GetServerResult.server s)
      else
        (Event.connectAttempt r.name :: (searchLoop ip rs).1, (searchLoop ip rs).2)

/-- Model of `get_server` lines 135-164: everything after the failed anonymous
attempt.  Credentials are resolved (prompting when needed), `signin`
obtains the account, then either the named resource is connected
directly or the IP of the URI's host is matched against every
resource's base URI (`user.resources()` is called a second time for the
loop). -/
def get_server_fallback (env : PlexEnv) (uri : Str)
    (username password servername : Option Str) : Trace × GetServerResult :=
  let t0 := if username.isNone && password.isNone then
      info (str "Could not get server object, maybe you need to be authenticated?")
    else []
  let u := credValue username env.usernameEnv env.usernameAns
  let p := credValue password env.passwordEnv env.passwordAns
  let preT := t0 ++ credTrace username env.usernameEnv (str "Plex username: ")
      ++ credTrace password env.passwordEnv (str "Plex password: ")
      ++ [Event.signin u p] ++ snameTrace env servername
  match snameValue env servername with
  | some n => (preT ++ [Event.connectAttempt n], connectNamed env n)
  | none =>
    let ip0 := host_for_resolution uri
    let ip := env.gethostbyname ip0
    (preT ++ info (str "OK, beginning the search process.")
      ++ info (str "Getting IP for " ++ ip0) ++ info (ipMsg ip uri)
      ++ [Event.resourcesQueried] ++ (searchLoop ip env.resources).1,
     (searchLoop ip env.resources).2)

/-- Model of `get_server(uri, username, password, servername)` (lines 120-164):
the anonymous `PlexServer(uri)` attempt is made first; its success is
returned immediately, its `NotFound` is swallowed and the fallback chain
runs. -/
def get_server (env : PlexEnv) (uri : Str)
    (username password servername : Option Str) : Trace × GetServerResult :=
  match env.anon with
  | some s => ([], GetServerResult.server s)
  | none => get_server_fallback env uri username password servername

/-- Model of `main`'s dispatch on the resolver result and mode flags
(lines 285-296): a non-`PlexServer` result is returned as the exit code;
with a server, `-m`/`-s` run their mode and neither flag yields code 5. -/
def main_route (sr : GetServerResult) (movie tv : Bool) : Except PyErr (Option Nat) :=
  match sr with
  | GetServerResult.err e => Except.error e
  | GetServerResult.exitCode c => Except.ok (some c)
  | GetServerResult.server _ =>
    if movie then Except.ok none
    else if tv then Except.ok none
    else Except.ok (some 5)

/-- Concrete movie "Aardvark" used in the concrete runs below. -/
def mvA : Movie := { title := str "Aardvark", streamUrl := str "http://u/a" }

/-- Concrete movie "Bobcat" used in the concrete runs below. -/
def mvB : Movie := { title := str "Bobcat", streamUrl := str "http://u/b" }

/-- A concrete Movies section: two movies; exact lookup knows only
"Aardvark"; any search returns both. -/
def secAB : MovieSection :=
  { all := [mvA, mvB]
    get := fun t => if t == str "Aardvark" then some mvA else none
    search := fun _ => [mvA, mvB] }

/-- A concrete Movies section whose search finds nothing. -/
def secNone : MovieSection :=
  { all := [mvA]
    get := fun t => if t == str "Aardvark" then some mvA else none
    search := fun _ => [] }

/-- Season 1 episode 1 of the concrete show (Plex numbers "1"/"1"). -/
def e11 : Episode :=
  { title := str "t11", parentIndex := str "1", index := str "1", streamUrl := str "u11" }

/-- Season 1 episode 2 of the concrete show. -/
def e12 : Episode :=
  { title := str "t12", parentIndex := str "1", index := str "2", streamUrl := str "u12" }

/-- Season 2 episode 1 of the concrete show. -/
def e21 : Episode :=
  { title := str "t21", parentIndex := str "2", index := str "1", streamUrl := str "u21" }

/-- Season 2 episode 2 of the concrete show. -/
def e22 : Episode :=
  { title := str "t22", parentIndex := str "2", index := str "2", streamUrl := str "u22" }

/-- A concrete show with two seasons of two episodes each. -/
def show2x2 : ShowT :=
  { title := str "Friends"
    seasons := [{ episodes := [e11, e12] }, { episodes := [e21, e22] }] }

/-- A concrete TV section exposing only `show2x2` under "Friends". -/
def tsecF : TVSection :=
  { get := fun t => if t == str "Friends" then some show2x2 else none
    search := fun _ => [] }

/-- A concrete server handle for the anonymous-connection runs. -/
def srvA : Server := { baseuri := str "http://10.0.0.2:32400" }

/-- The concrete URI used by the concrete resolver runs. -/
def uri0 : Str := str "http://example.com:32400"

/-- Environment in which the anonymous connection succeeds. -/
def envAnon : PlexEnv :=
  { anon := some srvA, usernameEnv := none, passwordEnv := none
    usernameAns := str "alice", passwordAns := str "pw", servernameAns := []
    resources := [], gethostbyname := fun s => s }

/-- Environment in which the anonymous connection raises `NotFound` and
the signed-in account has no resources. -/
def envEmpty : PlexEnv :=
  { anon := none, usernameEnv := none, passwordEnv := none
    usernameAns := str "alice", passwordAns := str "pw", servernameAns := []
    resources := [], gethostbyname := fun s => s }

lemma chunksOfAux_flatten (k1 : Nat) : ∀ (fuel : Nat) (l : List Str),
    (chunksOfAux k1 fuel l).flatten = l := by
  intro fuel
  induction fuel with
  | zero =>
    intro l
    cases l with
    | nil => rfl
    | cons x xs => simp [chunksOfAux]
  | succ n ih =>
    intro l
    cases l with
    | nil => rfl
    | cons x xs =>
      simp only [chunksOfAux, List.flatten_cons, ih]
      calc (x :: xs).take (k1 + 1) ++ xs.drop k1
          = x :: (xs.take k1 ++ xs.drop k1) := by simp [List.take_succ_cons]
        _ = x :: xs := by rw [List.take_append_drop]

lemma chunksOf_flatten (k1 : Nat) (l : List Str) : (chunksOf k1 l).flatten = l :=
  chunksOfAux_flatten k1 l.length l

lemma padLast_flatten (n : Nat) (cs : List (List Str)) :
    ∃ k, (padLast n cs).flatten = cs.flatten ++ List.replicate k ([] : Str) := by
  induction cs with
  | nil => exact ⟨0, rfl⟩
  | cons c cs ih =>
    cases cs with
    | nil =>
      refine ⟨n - c.length, ?_⟩
      simp [padLast, List.replicate]
    | cons c2 cs2 =>
      obtain ⟨k, hk⟩ := ih
      refine ⟨k, ?_⟩
      simp only [padLast, List.flatten_cons, hk, List.append_assoc]

lemma foldl_max_init (init : Nat) (ns : List Nat) : init ≤ ns.foldl Nat.max init := by
  induction ns generalizing init with
  | nil => exact Nat.le_refl _
  | cons m ms ih =>
    exact Nat.le_trans (Nat.le_max_left init m) (ih (Nat.max init m))

lemma foldl_max_mem {x : Nat} : ∀ (ns : List Nat) (init : Nat), x ∈ ns →
    x ≤ ns.foldl Nat.max init := by
  intro ns
  induction ns with
  | nil => intro init h; cases h
  | cons m ms ih =>
    intro init h
    rcases List.mem_cons.1 h with rfl | hm
    · exact Nat.le_trans (Nat.le_max_right init x) (foldl_max_init _ ms)
    · exact ih _ hm

lemma le_maxLen {a : Str} {l : List Str} (h : a ∈ l) : a.length ≤ maxLen l :=
  foldl_max_mem _ 0 (List.mem_map_of_mem List.length h)

lemma maxLen_pos {l : List Str} (h : ∃ a ∈ l, a ≠ []) : 0 < maxLen l := by
  obtain ⟨a, ha, hne⟩ := h
  have h1 : 0 < a.length := List.length_pos.2 hne
  exact Nat.lt_of_lt_of_le h1 (le_maxLen ha)

lemma mc_ok {w : Nat} {alist : List Str} (h : ∃ a ∈ alist, a ≠ []) :
    ∃ r, mc_core w alist = Except.ok r := by
  have hml : maxLen alist ≠ 0 := by have := maxLen_pos h; omega
  obtain ⟨a, ha, hne⟩ := h
  cases alist with
  | nil => cases ha
  | cons x xs =>
    simp only [mc_core, if_neg hml]
    split
    · exact ⟨_, rfl⟩
    · exact ⟨_, rfl⟩

lemma padChunks_flatten (n k1 : Nat) (l : List Str) :
    ∃ k, (padLast n (chunksOf k1 l)).flatten = l ++ List.replicate k ([] : Str) := by
  obtain ⟨k, hk⟩ := padLast_flatten n (chunksOf k1 l)
  exact ⟨k, by rw [hk, chunksOf_flatten]⟩

lemma splitOnColon_ne_nil (s : Str) : splitOnColon s ≠ [] := by
  cases s with
  | nil => simp [splitOnColon]
  | cons c cs =>
    simp only [splitOnColon]
    split
    · simp
    · split
      · simp
      · simp

lemma splitOnColon_no_colon {p : Str} (h : ∀ c ∈ p, c ≠ ':') : splitOnColon p = [p] := by
  induction p with
  | nil => rfl
  | cons c cs ih =>
    have hc : c ≠ ':' := h c (List.mem_cons_self c cs)
    have hcs : splitOnColon cs = [cs] := ih fun x hx => h x (List.mem_cons_of_mem c hx)
    simp [splitOnColon, hc, hcs]

lemma splitOnColon_append_colon (a b : Str) :
    splitOnColon (a ++ ':' :: b) = splitOnColon a ++ splitOnColon b := by
  induction a with
  | nil => simp [splitOnColon]
  | cons c cs ih =>
    by_cases hc : c = ':'
    · subst hc
      simp [splitOnColon, ih]
    · simp only [List.cons_append, splitOnColon, if_neg hc]
      cases hs : splitOnColon cs with
      | nil => cases splitOnColon_ne_nil cs hs
      | cons h t =>
        rw [show cs.append (':' :: b) = cs ++ ':' :: b from rfl, ih, hs]
        simp

lemma joinOn_colon_splitOnColon (s : Str) : joinOn [':'] (splitOnColon s) = s := by
  induction s with
  | nil => rfl
  | cons c cs ih =>
    by_cases hc : c = ':'
    · subst hc
      simp only [splitOnColon, if_pos rfl]
      cases hs : splitOnColon cs with
      | nil => cases splitOnColon_ne_nil cs hs
      | cons h t =>
        rw [hs] at ih
        simp [joinOn, ih]
    · simp only [splitOnColon, if_neg hc]
      cases hs : splitOnColon cs with
      | nil => cases splitOnColon_ne_nil cs hs
      | cons h t =>
        rw [hs] at ih
        cases t with
        | nil =>
          simp only [joinOn] at ih
          simp [joinOn, ih]
        | cons y ys =>
          simp only [joinOn] at ih ⊢
          simp only [List.cons_append, List.cons.injEq, true_and]
          exact ih

/-- Claim C1 (status: code_bug).  The spec says `"S<s>E<e>"` resolves
1-indexed into the show's season/episode sequence, but line 211 indexes
`show.seasons()[s].episodes()[e]` with Python's 0-based list indexing:
on a show with two seasons of two episodes, the argument `"S01E01"`
returns season 2's episode 2 (`e22`), although the program itself labels
`e11` — season 1, episode 1 — as `"S01E01 t11"` when it lists episodes.
The SnnEnn branch does take precedence over title lookup, but the
resolution is off by one against both the claim and the program's own
labels. -/
theorem C1_code_eval_snnenn :
    (lookup_episode 3 tsecF true [] 80 (Sum.inl show2x2) (str "S01E01")).2
      = Except.ok (EpRes.ep e22)
  ∧ parseSnnEnn (str "S01E01") = some (1, 1)
  ∧ epLabel e11 = str "S01E01 t11"
  ∧ e22 ≠ e11 := by decide

/-- Concrete arguments: `-m` with no `--name` (listing mode). -/
def argsNoName : Args :=
  { movie := true, tv := false, name := none, episode := none,
    resolution := none }

/-- Claim C2 (status: code_bug).  `print_multicolumn` prints with plain
`print` (lines 59 and 71), so listings go to STDOUT, not stderr.  This
run follows the listing mode, where the source itself builds title
strings (line 234: `choose(["{}".format(movie.title) ...])`): `-m` with
no `--name` on an interactive terminal lists the two movies, the user
types "Aardvark", and the exact lookup of that selection prints its
URL.  The run succeeds with TWO stdout lines — the multi-column listing
row and then the stream URL — contradicting the one-line-on-stdout and
"listings on the error stream" contract. -/
theorem C2_code_eval_listing_stdout :
    (main_movie secAB true (str "Aardvark") 80 argsNoName).2 = Except.ok ()
  ∧ stdoutLines (main_movie secAB true (str "Aardvark") 80 argsNoName).1
      = [str "Aardvark Bobcat", str "http://u/a"] := by decide

/-- Claim C3 (status: corrected), counterexample.  With terminal width 2
and input `["a", "b", ""]` the grid is the two padded columns
`[["a","b"], ["",""]]`: the input string `""` occurs twice among the
cells (the pad cell duplicates it), and the column-major reading is the
input followed by a padding cell, not the input itself. -/
theorem C3_counterexample :
    mcCells 2 [str "a", str "b", []] = some [str "a", str "b", [], []]
  ∧ (mcCells 2 [str "a", str "b", []]).map (List.count ([] : Str)) = some 2
  ∧ List.count ([] : Str) [str "a", str "b", []] = 1
  ∧ mcCells 2 [str "a", str "b", []] ≠ some [str "a", str "b", []] := by decide

/-- Claim C4 (status: corrected), counterexample.  Line 54
(`ncols = width // max(len(a) for a in alist)`) sits outside the
`try/except ZeroDivisionError`, so a list whose items are all empty —
e.g. `[""]` — divides by a zero maximum length and the
`ZeroDivisionError` propagates unhandled. -/
theorem C4_counterexample :
    mc_core 80 [([] : Str)] = Except.error PyErr.zeroDivisionError := by decide

/-- Concrete arguments: `-m --name Aardvark -r 1280x720`. -/
def argsRes : Args :=
  { movie := true, tv := false, name := some (str "Aardvark"), episode := none,
    resolution := some (str "1280x720") }

/-- Claim C9 (status: code_bug).  The resolution flag value is never
passed to stream-URL construction: `main_movie` (lines 232/236) and the
`-e` path of `main_episode` (line 267) call `getStreamUrl()` with no
argument — here a run with `-r 1280x720` produces a `getStreamUrl` call
whose `videoResolution` is `none` — and the single site that does pass
it (line 271) reads `args.resolution` with `args` not in scope in
`main_episode`, raising `NameError` before any URL is built. -/
theorem C9_code_eval_resolution :
    argsRes.resolution = some (str "1280x720")
  ∧ (main_movie secAB true [] 80 argsRes).1
      = [Event.getStreamUrl (str "Aardvark") none, Event.out Chan.stdout (str "http://u/a")]
  ∧ (main_episode 5 tsecF true (epLabel e11) 80 (str "Friends") none).2
      = Except.error PyErr.nameError := by decide

/-- Claim C3 (status: corrected), amended statement.  For every non-empty
list of display strings at least one of which is non-empty, the
formatter's cells read column-major are exactly the input list in its
original order followed by some number of empty-string padding cells —
so every input item occupies exactly one cell, in order, and a string's
cell count exceeds its input multiplicity only for the empty padding
string. -/
theorem C3_amended_reconstruction (w : Nat) (alist : List Str)
    (h : ∃ a ∈ alist, a ≠ []) :
    ∃ k, mcCells w alist = some (alist ++ List.replicate k ([] : Str)) := by
  have hml : maxLen alist ≠ 0 := by have := maxLen_pos h; omega
  obtain ⟨a, ha, hne⟩ := h
  cases alist with
  | nil => cases ha
  | cons x xs =>
    by_cases hc : w / maxLen (x :: xs) = 0
    · exact ⟨0, by simp [mcCells, mc_core, if_neg hml, hc]⟩
    · simp only [mcCells, mc_core, if_neg hml, if_neg hc]
      obtain ⟨k, hk⟩ :=
        padChunks_flatten
          (((x :: xs).length + w / maxLen (x :: xs) - 1) / (w / maxLen (x :: xs)))
          (((x :: xs).length + w / maxLen (x :: xs) - 1) / (w / maxLen (x :: xs)) - 1)
          (x :: xs)
      exact ⟨k, by rw [hk]⟩

/-- Witness for C3: a concrete two-item list reconstructs exactly. -/
theorem C3_witness :
    ∃ k, mcCells 80 [str "a", str "bb"]
      = some ([str "a", str "bb"] ++ List.replicate k ([] : Str)) :=
  C3_amended_reconstruction 80 [str "a", str "bb"] ⟨str "a", by decide, by decide⟩

/-- Claim C4 (status: corrected), amended statement.  Provided at least
one item is a non-empty string, `print_multicolumn` never raises: when
the terminal is too narrow (computed column count zero) it prints one
item per line, and a single-item list comes out as a single cell — one
item per line — on either path.  (The counterexample shows the
all-empty-items case does raise an unhandled `ZeroDivisionError`.) -/
theorem C4_amended_no_zerodiv (w : Nat) (alist : List Str)
    (h : ∃ a ∈ alist, a ≠ []) :
    (∃ r, mc_core w alist = Except.ok r)
  ∧ (w / maxLen alist = 0 → mc_core w alist = Except.ok (Sum.inl alist))
  ∧ (∀ a, alist = [a] →
      mc_core w alist = Except.ok (Sum.inl [a])
      ∨ mc_core w alist = Except.ok (Sum.inr [[a]])) := by
  have hml : maxLen alist ≠ 0 := by have := maxLen_pos h; omega
  refine ⟨mc_ok h, ?_, ?_⟩
  · intro hc
    obtain ⟨a, ha, hne⟩ := h
    cases alist with
    | nil => cases ha
    | cons x xs => simp [mc_core, if_neg hml, hc]
  · intro a ha
    subst ha
    by_cases hc : w / maxLen [a] = 0
    · left
      simp [mc_core, if_neg hml, hc]
    · right
      have hpos : 0 < w / maxLen [a] := Nat.pos_of_ne_zero hc
      have h1 : ([a].length + w / maxLen [a] - 1) / (w / maxLen [a]) = 1 := by
        have h2 : [a].length + w / maxLen [a] - 1 = w / maxLen [a] := by
          simp only [List.length_singleton]
          omega
        rw [h2, Nat.div_self hpos]
      simp [mc_core, if_neg hml, if_neg hc, h1, Nat.div_self hpos, chunksOf,
        chunksOfAux, padLast]

/-- Witness for C4: the narrow-terminal fallback and the single-item
case, on concrete inputs. -/
theorem C4_witness :
    mc_core 1 [str "hi"] = Except.ok (Sum.inl [str "hi"])
  ∧ (mc_core 80 [str "hi"] = Except.ok (Sum.inl [str "hi"])
      ∨ mc_core 80 [str "hi"] = Except.ok (Sum.inr [[str "hi"]])) :=
  ⟨(C4_amended_no_zerodiv 1 [str "hi"] ⟨str "hi", by decide, by decide⟩).2.1 (by decide),
   (C4_amended_no_zerodiv 80 [str "hi"] ⟨str "hi", by decide, by decide⟩).2.2
     (str "hi") rfl⟩

/-- A concrete Movies section whose search returns exactly one movie. -/
def secOne : MovieSection :=
  { all := [mvA]
    get := fun t => if t == str "Aardvark" then some mvA else none
    search := fun _ => [mvA] }

/-- Claim C5 (status: code_bug).  The exact-first and empty-results
limbs hold: an exact `get` hit is returned at once and a miss with an
empty search prints "No results" and returns 50.  But non-empty search
results are never successfully presented or auto-selected: line 182
passes the raw `Movie` objects to `choose` — whose own docstring
requires "a list of string options" — so with two or more results
`print_multicolumn` raises `TypeError` at `len(<Movie>)` before any
listing appears, and with exactly one result the auto-selected object
is handed to `section.get`, which raises `AttributeError` at
`title.lower()`; no movie is ever returned from the fallback. -/
theorem C5_code_eval_fallback_crash :
    lookup_movie secAB true [] 80 (str "Aardvark")
      = ([], Except.ok (MovieRes.m mvA))
  ∧ lookup_movie secNone true [] 80 (str "Zebra")
      = (info (str "No results"), Except.ok (MovieRes.code 50))
  ∧ (lookup_movie secAB true (str "Aardvark") 80 (str "Zebra")).2
      = Except.error PyErr.typeError
  ∧ (lookup_movie secOne true [] 80 (str "Zebra")).2
      = Except.error PyErr.attributeError := by decide

/-- Claim C6 (status: confirmed).  With the anonymous attempt failing, a
signed-in account exposing zero resources, and no server name supplied
(flag absent, prompt answered empty), `get_server` runs off the empty
search loop and returns the numeric code 10 — no exception — and `main`
returns it as the exit code, distinct from the no-mode code 5. -/
theorem C6_no_servers_code10 (env : PlexEnv) (uri : Str) (u p : Option Str)
    (h1 : env.anon = none) (h2 : env.resources = []) (h3 : env.servernameAns = []) :
    (get_server env uri u p none).2 = GetServerResult.exitCode 10
  ∧ main_route (get_server env uri u p none).2 true false = Except.ok (some 10)
  ∧ (10 : Nat) ≠ 5 := by
  have hmain : (get_server env uri u p none).2 = GetServerResult.exitCode 10 := by
    simp [get_server, h1, get_server_fallback, snameValue, h3, h2, searchLoop]
  exact ⟨hmain, by rw [hmain]; rfl, by decide⟩

/-- Witness for C6: a concrete environment with no resources. -/
theorem C6_witness :
    (get_server envEmpty uri0 none none none).2 = GetServerResult.exitCode 10
  ∧ main_route (get_server envEmpty uri0 none none none).2 true false
      = Except.ok (some 10)
  ∧ (10 : Nat) ≠ 5 :=
  C6_no_servers_code10 envEmpty uri0 none none rfl rfl rfl

/-- Claim C7 (status: confirmed).  A successful anonymous
`PlexServer(uri)` short-circuits `get_server`: the handle is returned
with an empty trace — no credential prompt, no `signin`, no resource
query, no connect attempt.  When the anonymous attempt raises
`NotFound`, the error is swallowed and the fallback chain runs: the run
equals the fallback computation and its trace always contains a
`signin` call. -/
theorem C7_anon_connection (env : PlexEnv) (uri : Str) (u p sn : Option Str) :
    (∀ s, env.anon = some s →
      get_server env uri u p sn = ([], GetServerResult.server s))
  ∧ (env.anon = none →
      get_server env uri u p sn = get_server_fallback env uri u p sn
      ∧ ∃ u' p', Event.signin u' p' ∈ (get_server env uri u p sn).1) := by
  constructor
  · intro s h
    simp [get_server, h]
  · intro h
    have hfb : get_server env uri u p sn = get_server_fallback env uri u p sn := by
      simp [get_server, h]
    refine ⟨hfb, credValue u env.usernameEnv env.usernameAns,
      credValue p env.passwordEnv env.passwordAns, ?_⟩
    rw [hfb]
    unfold get_server_fallback
    cases hs : snameValue env sn <;> simp [List.mem_append]

/-- Witness for C7: the anonymous success returns immediately with an
empty trace; the anonymous failure signs in. -/
theorem C7_witness :
    get_server envAnon uri0 none none none = ([], GetServerResult.server srvA)
  ∧ ∃ u' p', Event.signin u' p' ∈ (get_server envEmpty uri0 none none none).1 :=
  ⟨(C7_anon_connection envAnon uri0 none none none).1 srvA rfl,
   ((C7_anon_connection envEmpty uri0 none none none).2 rfl).2⟩

/-- Claim C8 (status: confirmed).  When the URI literal contains at least
two colons, the hostname handed to IP resolution is the netloc with only
its trailing colon segment (the port) removed; with fewer than two
colons the netloc is used unmodified. -/
theorem C8_port_strip (uri h p : Str) :
    (urlparse_netloc uri = h ++ ':' :: p → (∀ c ∈ p, c ≠ ':') →
      2 ≤ uri.count ':' → host_for_resolution uri = h)
  ∧ (uri.count ':' < 2 → host_for_resolution uri = urlparse_netloc uri) := by
  constructor
  · intro hn hp hc
    unfold host_for_resolution
    rw [if_pos hc, hn, splitOnColon_append_colon, splitOnColon_no_colon hp]
    have hd : (splitOnColon h ++ [p]).dropLast = splitOnColon h := by simp
    rw [hd]
    exact joinOn_colon_splitOnColon h
  · intro hc
    unfold host_for_resolution
    rw [if_neg (by omega)]

/-- Witness for C8: `http://example.com:32400` (two colons) resolves the
host `example.com`; `http://example.com` (one colon) keeps its netloc. -/
theorem C8_witness :
    host_for_resolution uri0 = str "example.com"
  ∧ host_for_resolution (str "http://example.com")
      = urlparse_netloc (str "http://example.com") :=
  ⟨(C8_port_strip uri0 (str "example.com") (str "32400")).1
      (by decide) (by decide) (by decide),
   (C8_port_strip (str "http://example.com") [] []).2 (by decide)⟩

/-- Claim C10 (status: confirmed).  `truncate` ignores its `chars` and
`ending` parameters entirely: any two argument choices give the same
result, a string shorter than 30 characters is returned unchanged, and a
string of 30 or more characters becomes its first 25 characters followed
by the literal `"..."`. -/
theorem C10_truncate_spec (t : Str) (c1 c2 : Nat) (e1 e2 : Str) :
    truncate t c1 e1 = truncate t c2 e2
  ∧ (t.length < 30 → truncate t c1 e1 = t)
  ∧ (30 ≤ t.length → truncate t c1 e1 = t.take 25 ++ str "...") := by
  refine ⟨rfl, fun h => ?_, fun h => ?_⟩
  · simp [truncate, h]
  · simp [truncate, Nat.not_lt.2 h]

/-- A 36-character title for the truncation witness. -/
def longTitle : Str := str "abcdefghijklmnopqrstuvwxyz0123456789"

/-- Witness for C10: both length regimes at concrete inputs, with
differing `chars`/`ending` arguments. -/
theorem C10_witness :
    truncate (str "short") 0 [] = str "short"
  ∧ truncate longTitle 99 (str "!!") = longTitle.take 25 ++ str "..." :=
  ⟨(C10_truncate_spec (str "short") 0 1 [] (str "zz")).2.1 (by decide),
   (C10_truncate_spec longTitle 99 1 (str "!!") []).2.2 (by decide)⟩
